import Mathlib

/-!
Shallow embedding of the resource-handler layer of `src/main.py` (FastAPI
handlers over SQLAlchemy core tables declared in `src/models/models.py`).

The relational store is modelled as a `DB` value: one Lean list per table,
in the store's default row order, plus the serial-id counters backing the
`id` primary-key columns.  Each HTTP handler becomes a Lean function from
`DB` (and the parsed request payload) to a response together with the
post-request store.  `HResp` distinguishes a 200 body, a 404 raised via
`HTTPException(status_code=404, detail=...)`, and an unhandled exception
that FastAPI surfaces as a 500.
-/

namespace Music

/-- JSON objects (the `permissions` column and payload field) modelled
shallowly as association lists of string keys and values. -/
abbrev Perms := List (String × String)

/-- A row of the `roles` table: columns `id`, `name`, `permissions`
(`src/models/models.py`).  The `Role` response model of `main.py`
exposes exactly these columns. -/
structure RoleRec where
  id : Nat
  name : String
  permissions : Perms
deriving DecidableEq, Repr

/-- A row of the `users` table (`src/models/models.py`): columns `id`,
`email`, `username`, `registered_at`, `role_id`, `hashed_password`,
`is_active`, `is_superuser`, `is_verified`.  Timestamps are modelled as
naturals. -/
structure UserRec where
  id : Nat
  email : String
  username : String
  registered_at : Nat
  role_id : Nat
  hashed_password : String
  is_active : Bool
  is_superuser : Bool
  is_verified : Bool
deriving DecidableEq, Repr

/-- The `User` response model of `main.py` (lines 91-102): every `users`
column except `hashed_password`.  FastAPI serialises every user endpoint
response through this model, so `hashed_password` is dropped from the
wire even when the underlying query selected it. -/
structure UserOut where
  id : Nat
  email : String
  username : String
  registered_at : Nat
  role_id : Nat
  is_active : Bool
  is_superuser : Bool
  is_verified : Bool
deriving DecidableEq, Repr

/-- Projection of a `users` row to the `User` response model. -/
def toUserOut (u : UserRec) : UserOut :=
  { id := u.id, email := u.email, username := u.username,
    registered_at := u.registered_at, role_id := u.role_id,
    is_active := u.is_active, is_superuser := u.is_superuser,
    is_verified := u.is_verified }

/-- A row of the `artists` table: columns `id`, `name`, `genre` (nullable),
`country` (nullable).  The `Artist` response model exposes the same
columns. -/
structure ArtistRec where
  id : Nat
  name : String
  genre : Option String
  country : Option String
deriving DecidableEq, Repr

/-- The store: one list per table in store-default row order, plus the
serial counters that generate primary keys.  (The `albums` and `songs`
tables are not needed by any claim and are omitted.) -/
structure DB where
  roles : List RoleRec
  users : List UserRec
  artists : List ArtistRec
  nextRoleId : Nat
  nextUserId : Nat
  nextArtistId : Nat
deriving DecidableEq, Repr

/-- HTTP outcome of a handler: `ok` is a 200 with a body, `notFound` the
404 raised with a detail string, `serverError` an exception escaping the
handler (FastAPI answers 500). -/
inductive HResp (α : Type) where
  | ok : α → HResp α
  | notFound : String → HResp α
  | serverError : HResp α
deriving DecidableEq, Repr

/-- Parsed body of `POST /roles/` and `PUT /roles/{id}` (`RoleCreate`,
main.py lines 54-56): `name` is required; an absent `permissions` field is
defaulted to the empty object by the model, so the handler cannot tell
"absent" from "explicitly {}". -/
structure RoleCreatePayload where
  name : String
  permissions : Perms := []
deriving DecidableEq, Repr

/-- Parsed body of `POST /users/` (the `UserCreate` class of main.py lines
58-65, which shadows the `auth.schemas` import of the same name): fields
`email`, `username`, `role_id`, `hashed_password`, and the three booleans
with defaults.  Note this model has NO field named `password`. -/
structure UserCreatePayload where
  email : String
  username : String
  role_id : Nat
  hashed_password : String
  is_active : Bool := true
  is_superuser : Bool := false
  is_verified : Bool := false
deriving DecidableEq, Repr

/-- Parsed body of `PUT /users/{id}` (`UserUpdate`, main.py lines 136-143):
all fields optional; pydantic's `.dict()` yields `None` both for an absent
field and for an explicit null, so the two are indistinguishable to the
handler. -/
structure UserUpdatePayload where
  email : Option String := none
  username : Option String := none
  role_id : Option Nat := none
  hashed_password : Option String := none
  is_active : Option Bool := none
  is_superuser : Option Bool := none
  is_verified : Option Bool := none
deriving DecidableEq, Repr

/-- True when every field of the payload is `None`, i.e. the
`{k: v for k, v in user.dict().items() if v is not None}` comprehension in
`update_user` produces an empty dict. -/
def UserUpdatePayload.isNoop (p : UserUpdatePayload) : Bool :=
  p.email.isNone && p.username.isNone && p.role_id.isNone &&
  p.hashed_password.isNone && p.is_active.isNone &&
  p.is_superuser.isNone && p.is_verified.isNone

/-- Parsed body of `POST /artists/` (`ArtistCreate`, main.py lines 67-70):
`name` required, `genre` and `country` defaulting to null when absent. -/
structure ArtistCreatePayload where
  name : String
  genre : Option String := none
  country : Option String := none
deriving DecidableEq, Repr

/-- Parsed body of `PUT /artists/{id}` for the handler at main.py line 312
(`ArtistUpdate`, lines 145-148): all fields optional. -/
structure ArtistUpdatePayload where
  name : Option String := none
  genre : Option String := none
  country : Option String := none
deriving DecidableEq, Repr

/-- True when every field is `None`: the value-dict built by the partial
`update_artist` handler is then empty. -/
def ArtistUpdatePayload.isNoop (p : ArtistUpdatePayload) : Bool :=
  p.name.isNone && p.genre.isNone && p.country.isNone

/-- `POST /roles/` (main.py lines 162-170): INSERT with the payload's
`name` and `permissions`; the serial column assigns the next id; RETURNING
yields the inserted row, which is the response. -/
def create_role (db : DB) (p : RoleCreatePayload) : HResp RoleRec × DB :=
  let r : RoleRec := { id := db.nextRoleId, name := p.name, permissions := p.permissions }
  (HResp.ok r, { db with roles := db.roles ++ [r], nextRoleId := db.nextRoleId + 1 })

/-- `GET /roles/` (main.py lines 173-176): `select(roles)` with no
`order_by`, no `limit` and no `offset` — every row in store order. -/
def get_roles (db : DB) : List RoleRec :=
  db.roles

/-- `GET /roles/{role_id}` (main.py lines 179-184): first row whose `id`
matches, else 404. -/
def get_role (db : DB) (rid : Nat) : HResp RoleRec :=
  match db.roles.find? (fun r => r.id == rid) with
  | some r => HResp.ok r
  | none => HResp.notFound "Role not found"

/-- `PUT /roles/{role_id}` (main.py lines 187-197): the payload is a full
`RoleCreate`, and the UPDATE sets `name` and `permissions`
unconditionally on every matching row; RETURNING's first row is the
response, a missing row is a 404 after the commit. -/
def update_role (db : DB) (rid : Nat) (p : RoleCreatePayload) : HResp RoleRec × DB :=
  let updated := db.roles.map fun r =>
    if r.id == rid then { r with name := p.name, permissions := p.permissions } else r
  match updated.find? (fun r => r.id == rid) with
  | some r => (HResp.ok r, { db with roles := updated })
  | none => (HResp.notFound "Role not found", { db with roles := updated })

/-- `POST /users/` (main.py lines 200-219).  The handler's first line is
`hashed_password = hashpw(user.password.encode('utf-8'), gensalt())...`,
but the `UserCreate` model in scope (declared at line 58, shadowing the
`auth.schemas` import) has no attribute `password` — it has
`hashed_password`.  Every request therefore raises `AttributeError`
before any SQL is built; FastAPI answers 500 and the store is
untouched. -/
def create_user (db : DB) (_p : UserCreatePayload) : HResp UserOut × DB :=
  (HResp.serverError, db)

/-- `GET /users/?limit&offset` (main.py lines 222-230):
`select(users).limit(limit).offset(offset)` — no `order_by`, so rows come
in store order; OFFSET skips then LIMIT truncates; the `User`
response model drops `hashed_password`. -/
def get_users (db : DB) (limit : Nat := 10) (offset : Nat := 0) : List UserOut :=
  ((db.users.drop offset).take limit).map toUserOut

/-- `GET /users/{user_id}` (main.py lines 234-239): first matching row
projected through the `User` response model, else 404. -/
def get_user (db : DB) (uid : Nat) : HResp UserOut :=
  match db.users.find? (fun u => u.id == uid) with
  | some u => HResp.ok (toUserOut u)
  | none => HResp.notFound "User not found"

/-- Shallow merge used by `update_user`: the value dict
`{k: v for k, v in user.dict().items() if v is not None}` keeps exactly
the non-null payload fields, so each column is overwritten when the
payload field is `some` and kept when it is `none`. -/
def applyUserUpdate (p : UserUpdatePayload) (u : UserRec) : UserRec :=
  { u with
    email := p.email.getD u.email,
    username := p.username.getD u.username,
    role_id := p.role_id.getD u.role_id,
    hashed_password := p.hashed_password.getD u.hashed_password,
    is_active := p.is_active.getD u.is_active,
    is_superuser := p.is_superuser.getD u.is_superuser,
    is_verified := p.is_verified.getD u.is_verified }

/-- `PUT /users/{user_id}` (main.py lines 242-255): the non-null payload
fields are applied to every matching row; RETURNING's first row (sans
`hashed_password`) is the response, a missing row is a 404.  When the
payload sets no field the value dict is empty and SQLAlchemy emits
`UPDATE users SET  WHERE ...` — an empty SET clause the store rejects;
the unhandled exception surfaces as a 500 and nothing is committed. -/
def update_user (db : DB) (uid : Nat) (p : UserUpdatePayload) : HResp UserOut × DB :=
  if p.isNoop then (HResp.serverError, db)
  else
    let updated := db.users.map fun u => if u.id == uid then applyUserUpdate p u else u
    match updated.find? (fun u => u.id == uid) with
    | some u => (HResp.ok (toUserOut u), { db with users := updated })
    | none => (HResp.notFound "User not found", { db with users := updated })

/-- `POST /artists/` (main.py lines 258-267): INSERT of `name`, `genre`,
`country` (the latter two possibly NULL); RETURNING row is the
response. -/
def create_artist (db : DB) (p : ArtistCreatePayload) : HResp ArtistRec × DB :=
  let a : ArtistRec := { id := db.nextArtistId, name := p.name, genre := p.genre, country := p.country }
  (HResp.ok a, { db with artists := db.artists ++ [a], nextArtistId := db.nextArtistId + 1 })

/-- `GET /artists/?limit&offset` (main.py lines 270-278): same shape as
`get_users`, over the `artists` table. -/
def get_artists (db : DB) (limit : Nat := 10) (offset : Nat := 0) : List ArtistRec :=
  (db.artists.drop offset).take limit

/-- `GET /artists/{artist_id}` (main.py lines 280-285). -/
def get_artist (db : DB) (aid : Nat) : HResp ArtistRec :=
  match db.artists.find? (fun a => a.id == aid) with
  | some a => HResp.ok a
  | none => HResp.notFound "Artist not found"

/-- Rows the DELETE of `delete_artist` affects: `result.rowcount`. -/
def deleteRowcount (db : DB) (aid : Nat) : Nat :=
  (db.artists.filter (fun a => a.id == aid)).length

/-- `DELETE /artists/{artist_id}` (main.py lines 288-295): the DELETE runs
and is committed first; only then is `result.rowcount` inspected — zero
affected rows raises the 404, otherwise a confirmation message (not the
deleted record) is returned. -/
def delete_artist (db : DB) (aid : Nat) : HResp String × DB :=
  let remaining := db.artists.filter (fun a => !(a.id == aid))
  let db' := { db with artists := remaining }
  if deleteRowcount db aid == 0 then (HResp.notFound "Artist not found", db')
  else (HResp.ok "Artist deleted successfully", db')

/-- Shallow merge used by the partial `update_artist` handler. -/
def applyArtistUpdate (p : ArtistUpdatePayload) (a : ArtistRec) : ArtistRec :=
  { a with
    name := p.name.getD a.name,
    genre := match p.genre with | some g => some g | none => a.genre,
    country := match p.country with | some c => some c | none => a.country }

/-- `PUT /artists/{artist_id}`, the handler at main.py lines 312-321 (the
first live registration for this path+method, hence the one FastAPI
serves): partial merge of the non-null `ArtistUpdate` fields, with the
same empty-SET failure as `update_user` when every field is null. -/
def update_artist (db : DB) (aid : Nat) (p : ArtistUpdatePayload) : HResp ArtistRec × DB :=
  if p.isNoop then (HResp.serverError, db)
  else
    let updated := db.artists.map fun a => if a.id == aid then applyArtistUpdate p a else a
    match updated.find? (fun a => a.id == aid) with
    | some a => (HResp.ok a, { db with artists := updated })
    | none => (HResp.notFound "Artist not found", { db with artists := updated })

/-- The second `update_artist` definition, main.py lines 344-355: takes a
full `ArtistCreate` payload and writes `name`, `genre`, `country`
unconditionally (absent `genre`/`country` arrive as null and are written
as NULL).  Registered after the partial handler for the same route, so it
is dead at the HTTP layer, but it is a live module-level definition. -/
def update_artist_overwrite (db : DB) (aid : Nat) (p : ArtistCreatePayload) : HResp ArtistRec × DB :=
  let updated := db.artists.map fun a =>
    if a.id == aid then { a with name := p.name, genre := p.genre, country := p.country } else a
  match updated.find? (fun a => a.id == aid) with
  | some a => (HResp.ok a, { db with artists := updated })
  | none => (HResp.notFound "Artist not found", { db with artists := updated })

/-- The serial counter dominates every stored role id (holds for any store
whose roles were created through the serial column). -/
def rolesWf (db : DB) : Prop :=
  ∀ r ∈ db.roles, r.id < db.nextRoleId

instance (db : DB) : Decidable (rolesWf db) := by
  unfold rolesWf; infer_instance

/-- Two user rows that agree on every column except possibly
`hashed_password`. -/
def sameExceptHash (u v : UserRec) : Prop :=
  u.id = v.id ∧ u.email = v.email ∧ u.username = v.username ∧
  u.registered_at = v.registered_at ∧ u.role_id = v.role_id ∧
  u.is_active = v.is_active ∧ u.is_superuser = v.is_superuser ∧
  u.is_verified = v.is_verified

instance (u v : UserRec) : Decidable (sameExceptHash u v) := by
  unfold sameExceptHash; infer_instance

/-- Two stores that differ at most in the `hashed_password` values of
their user rows. -/
def dbSameExceptHash (d₁ d₂ : DB) : Prop :=
  List.Forall₂ sameExceptHash d₁.users d₂.users ∧
  d₁.roles = d₂.roles ∧ d₁.artists = d₂.artists ∧
  d₁.nextRoleId = d₂.nextRoleId ∧ d₁.nextUserId = d₂.nextUserId ∧
  d₁.nextArtistId = d₂.nextArtistId

/-! ### Sample stores used by witnesses and counterexamples -/

/-- A user row as the registration flow would have left it. -/
def userA : UserRec :=
  { id := 1, email := "alice@example.com", username := "alice", registered_at := 100,
    role_id := 1, hashed_password := "$2b$12$abcdefghijk", is_active := true,
    is_superuser := false, is_verified := false }

/-- The same row with a different stored hash. -/
def userA' : UserRec :=
  { userA with hashed_password := "$2b$12$zzzzzzzzzzz" }

/-- Store holding the single user `userA`. -/
def dbUsers1 : DB := { roles := [], users := [userA], artists := [], nextRoleId := 1, nextUserId := 2, nextArtistId := 1 }

/-- Store holding the single user `userA'` — identical to `dbUsers1`
except for the stored hash. -/
def dbUsers2 : DB := { dbUsers1 with users := [userA'] }

/-- The empty store. -/
def dbEmpty : DB := { roles := [], users := [], artists := [], nextRoleId := 1, nextUserId := 1, nextArtistId := 1 }

/-- An artist row with both nullable columns populated. -/
def artistA : ArtistRec := { id := 1, name := "A", genre := some "rock", country := some "KZ" }

/-- Store holding the single artist `artistA`. -/
def dbArtists1 : DB := { roles := [], users := [], artists := [artistA], nextRoleId := 1, nextUserId := 1, nextArtistId := 2 }

/-- A role row with a non-empty permissions object. -/
def roleAdmin : RoleRec := { id := 1, name := "admin", permissions := [("perm", "all")] }

/-- Store holding the single role `roleAdmin`. -/
def dbRoles1 : DB := { roles := [roleAdmin], users := [], artists := [], nextRoleId := 2, nextUserId := 1, nextArtistId := 1 }

/-- Store holding eleven roles with ids 0..10. -/
def dbRoles11 : DB :=
  { roles := (List.range 11).map (fun i => { id := i, name := "r", permissions := [] }),
    users := [], artists := [], nextRoleId := 11, nextUserId := 1, nextArtistId := 1 }

/-! ### Helper lemmas -/

/-- An UPDATE's per-row rewrite commutes with the RETURNING lookup: when
the rewrite `m` keeps the key, finding the key in the rewritten table is
finding it in the original table and rewriting the hit. -/
theorem find?_map_ite {α : Type} (key : α → Nat) (uid : Nat) (m : α → α)
    (hm : ∀ x, key (m x) = key x) :
    ∀ l : List α,
      (l.map fun x => if key x == uid then m x else x).find? (fun x => key x == uid)
        = (l.find? (fun x => key x == uid)).map m := by
  intro l
  induction l with
  | nil => rfl
  | cons a l ih =>
    cases hb : (key a == uid) with
    | true =>
      simp only [List.map_cons, hb, if_true]
      rw [List.find?_cons_of_pos, List.find?_cons_of_pos] <;>
        simp [hm, hb]
    | false =>
      simp only [List.map_cons, hb, if_false]
      rw [List.find?_cons_of_neg, List.find?_cons_of_neg, ih] <;>
        simp [hb]

/-- Projections that ignore `hashed_password` agree on the `find?` hits of
two hash-related user tables. -/
theorem find?_proj_congr (f : UserRec → UserOut)
    (hf : ∀ u v, sameExceptHash u v → f u = f v) (uid : Nat) :
    ∀ {l₁ l₂ : List UserRec}, List.Forall₂ sameExceptHash l₁ l₂ →
      (l₁.find? (fun u => u.id == uid)).map f = (l₂.find? (fun u => u.id == uid)).map f := by
  intro l₁ l₂ h
  induction h with
  | nil => rfl
  | cons hr _ ih =>
    rename_i u v l₁' l₂' _
    have hv : (v.id == uid) = (u.id == uid) := by rw [hr.1]
    cases hb : (u.id == uid) with
    | true =>
      simp only [List.find?_cons, hb, hv]
      simp [hf _ _ hr]
    | false =>
      simp only [List.find?_cons, hb, hv]
      exact ih

/-- Hash-related user tables have identical projections through a
hash-ignoring map. -/
theorem map_proj_congr (f : UserRec → UserOut)
    (hf : ∀ u v, sameExceptHash u v → f u = f v) :
    ∀ {l₁ l₂ : List UserRec}, List.Forall₂ sameExceptHash l₁ l₂ →
      l₁.map f = l₂.map f := by
  intro l₁ l₂ h
  induction h with
  | nil => rfl
  | cons hr _ ih => simp [hf _ _ hr, ih]

/-- The `User` response projection ignores `hashed_password`. -/
theorem toUserOut_congr (u v : UserRec) (h : sameExceptHash u v) :
    toUserOut u = toUserOut v := by
  obtain ⟨h1, h2, h3, h4, h5, h6, h7, h8⟩ := h
  simp [toUserOut, h1, h2, h3, h4, h5, h6, h7, h8]

/-- The partial-update merge preserves the hash-relatedness of rows: it
writes the same payload values into both rows, and keeps the remaining
columns of each. -/
theorem applyUserUpdate_congr (p : UserUpdatePayload) (u v : UserRec)
    (h : sameExceptHash u v) :
    sameExceptHash (applyUserUpdate p u) (applyUserUpdate p v) := by
  obtain ⟨h1, h2, h3, h4, h5, h6, h7, h8⟩ := h
  exact ⟨h1, by simp [applyUserUpdate, h2], by simp [applyUserUpdate, h3], h4,
    by simp [applyUserUpdate, h5], by simp [applyUserUpdate, h6],
    by simp [applyUserUpdate, h7], by simp [applyUserUpdate, h8]⟩

/-- The merge of `update_user` never touches `id` or `registered_at`:
neither is a field of `UserUpdate`. -/
theorem applyUserUpdate_id_registered_at (p : UserUpdatePayload) (u : UserRec) :
    (applyUserUpdate p u).id = u.id ∧ (applyUserUpdate p u).registered_at = u.registered_at :=
  ⟨rfl, rfl⟩

/-- The merge of the partial `update_artist` never touches `id`. -/
theorem applyArtistUpdate_id (p : ArtistUpdatePayload) (a : ArtistRec) :
    (applyArtistUpdate p a).id = a.id :=
  rfl

/-- The store `update_user` leaves behind (independent of whether
RETURNING found a row): every matching row merged, other rows
unchanged. -/
theorem update_user_snd (db : DB) (uid : Nat) (p : UserUpdatePayload)
    (hn : p.isNoop = false) :
    (update_user db uid p).2
      = { db with users := db.users.map fun u => if u.id == uid then applyUserUpdate p u else u } := by
  simp only [update_user, hn, Bool.false_eq_true, if_false]
  cases (db.users.map fun u => if u.id == uid then applyUserUpdate p u else u).find?
      (fun u => u.id == uid) <;> rfl

/-- Same for the partial `update_artist`. -/
theorem update_artist_snd (db : DB) (aid : Nat) (p : ArtistUpdatePayload)
    (hn : p.isNoop = false) :
    (update_artist db aid p).2
      = { db with artists := db.artists.map fun a => if a.id == aid then applyArtistUpdate p a else a } := by
  simp only [update_artist, hn, Bool.false_eq_true, if_false]
  cases (db.artists.map fun a => if a.id == aid then applyArtistUpdate p a else a).find?
      (fun a => a.id == aid) <;> rfl

/-! ### Claims -/

/-- C1 (counterexample).  The claim covers the Role update endpoint, but
`update_role` takes a full `RoleCreate` payload: a request body
`{"name": "admin"}` with the `permissions` field absent parses with
`permissions = {}` and the UPDATE overwrites the stored permissions with
`{}` instead of retaining the prior value `{"perm": "all"}`. -/
theorem update_role_drops_prior_permissions :
    (update_role dbRoles1 1 { name := "admin" }).1
        = HResp.ok { id := 1, name := "admin", permissions := [] } ∧
    (update_role dbRoles1 1 { name := "admin" }).1 ≠ HResp.ok roleAdmin := by
  exact ⟨rfl, by decide⟩

/-- C1 (amended).  For the User and Artist update endpoints (whose
payloads are all-optional models), an update on an id present in the
store, with a payload setting at least one field, applies exactly the
non-null payload fields: the response carries the payload value for each
supplied field and the prior value for each absent/null field, and the
row left in the store is the same merged record. -/
theorem update_user_artist_partial_merge :
    (∀ (db : DB) (uid : Nat) (p : UserUpdatePayload) (u : UserRec),
      db.users.find? (fun x => x.id == uid) = some u →
      p.isNoop = false →
      (update_user db uid p).1 = HResp.ok
        { id := u.id, email := p.email.getD u.email, username := p.username.getD u.username,
          registered_at := u.registered_at, role_id := p.role_id.getD u.role_id,
          is_active := p.is_active.getD u.is_active,
          is_superuser := p.is_superuser.getD u.is_superuser,
          is_verified := p.is_verified.getD u.is_verified } ∧
      (update_user db uid p).2.users.find? (fun x => x.id == uid)
        = some (applyUserUpdate p u)) ∧
    (∀ (db : DB) (aid : Nat) (p : ArtistUpdatePayload) (a : ArtistRec),
      db.artists.find? (fun x => x.id == aid) = some a →
      p.isNoop = false →
      (update_artist db aid p).1 = HResp.ok
        { id := a.id, name := p.name.getD a.name,
          genre := match p.genre with | some g => some g | none => a.genre,
          country := match p.country with | some c => some c | none => a.country } ∧
      (update_artist db aid p).2.artists.find? (fun x => x.id == aid)
        = some (applyArtistUpdate p a)) := by
  constructor
  · intro db uid p u hf hn
    have hmap := find?_map_ite (fun x : UserRec => x.id) uid (applyUserUpdate p)
      (fun _ => rfl) db.users
    constructor
    · simp only [update_user, hn, Bool.false_eq_true, if_false, hmap, hf, Option.map_some']
      rfl
    · rw [update_user_snd db uid p hn]
      simp only [hmap, hf, Option.map_some']
  · intro db aid p a hf hn
    have hmap := find?_map_ite (fun x : ArtistRec => x.id) aid (applyArtistUpdate p)
      (fun _ => rfl) db.artists
    constructor
    · simp only [update_artist, hn, Bool.false_eq_true, if_false, hmap, hf, Option.map_some']
      rfl
    · rw [update_artist_snd db aid p hn]
      simp only [hmap, hf, Option.map_some']

/-- C1 (witness): concrete partial updates — a user update setting only
`email` keeps the other seven response fields, an artist update setting
only `name` keeps `genre` and `country`. -/
theorem update_user_artist_partial_merge_witness :
    ((update_user dbUsers1 1 { email := some "new@example.com" }).1 = HResp.ok
      { id := 1, email := "new@example.com", username := "alice", registered_at := 100,
        role_id := 1, is_active := true, is_superuser := false, is_verified := false } ∧
    (update_user dbUsers1 1 { email := some "new@example.com" }).2.users.find?
        (fun x => x.id == 1)
      = some (applyUserUpdate { email := some "new@example.com" } userA)) ∧
    ((update_artist dbArtists1 1 { name := some "B" }).1 = HResp.ok
      { id := 1, name := "B", genre := some "rock", country := some "KZ" } ∧
    (update_artist dbArtists1 1 { name := some "B" }).2.artists.find?
        (fun x => x.id == 1)
      = some (applyArtistUpdate { name := some "B" } artistA)) := by
  exact ⟨update_user_artist_partial_merge.1 dbUsers1 1 _ userA rfl rfl,
    update_user_artist_partial_merge.2 dbArtists1 1 _ artistA rfl rfl⟩

/-- C2.  `create_user` raises `AttributeError` on every request — the
handler reads `user.password` but the `UserCreate` model in scope has no
such field — so no create request ever stores anything (first conjunct);
and `update_user` writes a caller-supplied `hashed_password` value into
the column verbatim, unhashed (second conjunct). -/
theorem create_user_crashes_and_update_persists_raw :
    (∀ (db : DB) (p : UserCreatePayload), create_user db p = (HResp.serverError, db)) ∧
    (update_user dbUsers1 1 { hashed_password := some "plaintext-secret" }).2.users.map
        (fun u => u.hashed_password) = ["plaintext-secret"] := by
  exact ⟨fun _ _ => rfl, rfl⟩

/-- C3.  An update whose payload sets no field produces an empty SQL SET
clause, which the store rejects: the request ends in a 500, not the
claimed 200 with the unchanged record — for users and for artists, even
though the id exists in the store. -/
theorem noop_update_is_server_error :
    update_user dbUsers1 1 { } = (HResp.serverError, dbUsers1) ∧
    update_artist dbArtists1 1 { } = (HResp.serverError, dbArtists1) ∧
    (∀ r : UserOut, (update_user dbUsers1 1 { }).1 ≠ HResp.ok r) ∧
    (update_user dbUsers1 1 { }).1 ≠ HResp.notFound "User not found" := by
  refine ⟨rfl, rfl, ?_, by decide⟩
  intro r h
  exact HResp.noConfusion h

/-- C4 (counterexample).  The roles list endpoint takes no pagination
parameters at all: with eleven stored roles it returns all eleven rows,
not the ten the claimed default `limit = 10` would allow. -/
theorem get_roles_returns_all_rows :
    (get_roles dbRoles11).length = 11 ∧ ¬((get_roles dbRoles11).length ≤ 10) := by
  exact ⟨by decide, by decide⟩

/-- C4 (amended).  The user and artist list endpoints paginate in store
order: `limit` defaults to 10 and `offset` to 0, a call never returns
more than `limit` rows, and an empty store yields an empty (non-error)
list; the roles list endpoint has no pagination and always returns every
row. -/
theorem list_endpoint_semantics :
    (∀ db : DB, (get_roles db).length = db.roles.length) ∧
    (∀ db : DB, get_users db = get_users db 10 0) ∧
    (∀ (db : DB) (limit offset : Nat), (get_users db limit offset).length ≤ limit) ∧
    (∀ (db : DB) (limit offset : Nat), (get_artists db limit offset).length ≤ limit) ∧
    (∀ limit offset : Nat, get_users dbEmpty limit offset = []) ∧
    (∀ limit offset : Nat, get_artists dbEmpty limit offset = []) := by
  refine ⟨fun _ => rfl, fun _ => rfl, ?_, ?_, ?_, ?_⟩
  · intro db limit offset
    simp only [get_users, List.length_map]
    exact List.length_take_le limit _
  · intro db limit offset
    exact List.length_take_le limit _
  · intro limit offset
    simp [get_users, dbEmpty]
  · intro limit offset
    simp [get_artists, dbEmpty]

/-- C5 (counterexample).  With an empty payload, an update on an absent
id does not reach the 404 path: the empty SET clause fails first and the
request ends 500, not NotFound. -/
theorem update_absent_id_empty_payload_500 :
    (update_user dbEmpty 7 { }).1 = HResp.serverError ∧
    (update_user dbEmpty 7 { }).1 ≠ HResp.notFound "User not found" := by
  exact ⟨rfl, by decide⟩

/-- C5 (amended).  On an id absent from the store, Get and Delete always
answer 404, and Update answers 404 whenever its payload sets at least one
field (an all-null payload errors out before the 404 check). -/
theorem absent_id_yields_not_found :
    (∀ (db : DB) (uid : Nat), (∀ u ∈ db.users, u.id ≠ uid) →
      get_user db uid = HResp.notFound "User not found") ∧
    (∀ (db : DB) (uid : Nat) (p : UserUpdatePayload), (∀ u ∈ db.users, u.id ≠ uid) →
      p.isNoop = false →
      (update_user db uid p).1 = HResp.notFound "User not found") ∧
    (∀ (db : DB) (aid : Nat), (∀ a ∈ db.artists, a.id ≠ aid) →
      (delete_artist db aid).1 = HResp.notFound "Artist not found") ∧
    (∀ (db : DB) (rid : Nat), (∀ r ∈ db.roles, r.id ≠ rid) →
      get_role db rid = HResp.notFound "Role not found") := by
  refine ⟨?_, ?_, ?_, ?_⟩
  · intro db uid h
    have hnone : db.users.find? (fun u => u.id == uid) = none :=
      List.find?_eq_none.2 fun u hu => by simp [h u hu]
    simp [get_user, hnone]
  · intro db uid p h hn
    have hnone : db.users.find? (fun u => u.id == uid) = none :=
      List.find?_eq_none.2 fun u hu => by simp [h u hu]
    have hmap := find?_map_ite (fun x : UserRec => x.id) uid (applyUserUpdate p)
      (fun _ => rfl) db.users
    simp only [update_user, hn, Bool.false_eq_true, if_false, hmap, hnone, Option.map_none']
  · intro db aid h
    have hzero : deleteRowcount db aid = 0 := by
      simp only [deleteRowcount, List.length_eq_zero]
      exact List.filter_eq_nil_iff.2 fun a ha => by simp [h a ha]
    simp [delete_artist, hzero]
  · intro db rid h
    have hnone : db.roles.find? (fun r => r.id == rid) = none :=
      List.find?_eq_none.2 fun r hr => by simp [h r hr]
    simp [get_role, hnone]

/-- C5 (witness): on stores holding only id 1, the four operations at
id 99 all answer their 404. -/
theorem absent_id_yields_not_found_witness :
    get_user dbUsers1 99 = HResp.notFound "User not found" ∧
    (update_user dbUsers1 99 { email := some "x@y.z" }).1 = HResp.notFound "User not found" ∧
    (delete_artist dbArtists1 99).1 = HResp.notFound "Artist not found" ∧
    get_role dbRoles1 99 = HResp.notFound "Role not found" := by
  exact ⟨absent_id_yields_not_found.1 dbUsers1 99 (by decide),
    absent_id_yields_not_found.2.1 dbUsers1 99 _ (by decide) rfl,
    absent_id_yields_not_found.2.2.1 dbArtists1 99 (by decide),
    absent_id_yields_not_found.2.2.2 dbRoles1 99 (by decide)⟩

/-- A DELETE that affects zero rows: the handler raises the 404 and the
committed store is the one it started from. -/
theorem delete_artist_zero_rows (db : DB) (aid : Nat)
    (hzero : deleteRowcount db aid = 0) :
    delete_artist db aid = (HResp.notFound "Artist not found", db) := by
  have hnil : db.artists.filter (fun a => a.id == aid) = [] :=
    List.length_eq_zero.1 hzero
  have hall : ∀ a ∈ db.artists, (a.id == aid) = false := fun a ha => by
    have := List.filter_eq_nil_iff.1 hnil a ha
    simpa using this
  have hkeep : db.artists.filter (fun a => !(a.id == aid)) = db.artists :=
    List.filter_eq_self.2 fun a ha => by simp [hall a ha]
  have hcond : (deleteRowcount db aid == 0) = true := by simp [hzero]
  simp only [delete_artist, hcond, if_true, hkeep]

/-- C6.  `delete_artist` answers 404 exactly when the DELETE affected
zero rows (`deleteRowcount` is the `rowcount` the handler inspects, with
no existence pre-check); on success it returns the confirmation message,
every row with the id is physically gone, and deleting the same id a
second time answers 404. -/
theorem delete_artist_rowcount_spec :
    ∀ (db : DB) (aid : Nat),
      (deleteRowcount db aid = 0 →
        delete_artist db aid = (HResp.notFound "Artist not found", db)) ∧
      (deleteRowcount db aid ≠ 0 →
        (delete_artist db aid).1 = HResp.ok "Artist deleted successfully" ∧
        (∀ a ∈ (delete_artist db aid).2.artists, a.id ≠ aid) ∧
        (delete_artist (delete_artist db aid).2 aid).1
          = HResp.notFound "Artist not found") := by
  intro db aid
  refine ⟨delete_artist_zero_rows db aid, ?_⟩
  intro hnz
  have hcond : (deleteRowcount db aid == 0) = false := by simp [hnz]
  have hgone : ∀ a ∈ db.artists.filter (fun a => !(a.id == aid)), a.id ≠ aid := by
    intro a ha
    have := (List.mem_filter.1 ha).2
    simpa using this
  have hafter : (delete_artist db aid).2.artists
      = db.artists.filter (fun a => !(a.id == aid)) := by
    simp only [delete_artist, hcond, Bool.false_eq_true, if_false]
  have hzero2 : deleteRowcount (delete_artist db aid).2 aid = 0 := by
    rw [deleteRowcount, hafter, List.length_eq_zero]
    exact List.filter_eq_nil_iff.2 fun a ha => by simp [hgone a ha]
  refine ⟨by simp only [delete_artist, hcond, Bool.false_eq_true, if_false], ?_, ?_⟩
  · intro a ha
    exact hgone a (hafter ▸ ha)
  · rw [delete_artist_zero_rows _ aid hzero2]

/-- C6 (witness): deleting artist 1 from a store holding it succeeds with
the confirmation message, removes it, and a second delete answers 404. -/
theorem delete_artist_rowcount_spec_witness :
    (delete_artist dbArtists1 1).1 = HResp.ok "Artist deleted successfully" ∧
    (∀ a ∈ (delete_artist dbArtists1 1).2.artists, a.id ≠ 1) ∧
    (delete_artist (delete_artist dbArtists1 1).2 1).1
      = HResp.notFound "Artist not found" :=
  (delete_artist_rowcount_spec dbArtists1 1).2 (by decide)

/-- C7.  On a store whose serial counter dominates every stored role id,
`create_role` returns a record carrying the supplied fields and a fresh
id distinct from every existing role id, a subsequent `get_role` on that
id returns exactly the created record, and the counter invariant is
preserved. -/
theorem create_role_assigns_fresh_id :
    ∀ (db : DB) (p : RoleCreatePayload), rolesWf db →
      ∃ (r : RoleRec) (db' : DB),
        create_role db p = (HResp.ok r, db') ∧
        r.name = p.name ∧ r.permissions = p.permissions ∧
        (∀ r₀ ∈ db.roles, r₀.id ≠ r.id) ∧
        get_role db' r.id = HResp.ok r ∧
        rolesWf db' := by
  intro db p hwf
  refine ⟨{ id := db.nextRoleId, name := p.name, permissions := p.permissions },
    { db with
        roles := db.roles ++ [{ id := db.nextRoleId, name := p.name, permissions := p.permissions }],
        nextRoleId := db.nextRoleId + 1 },
    rfl, rfl, rfl, ?_, ?_, ?_⟩
  · intro r₀ h
    exact Nat.ne_of_lt (hwf r₀ h)
  · have hnone : db.roles.find? (fun r => r.id == db.nextRoleId) = none :=
      List.find?_eq_none.2 fun r hr => by simp [Nat.ne_of_lt (hwf r hr)]
    simp only [get_role, List.find?_append, hnone, Option.none_or]
    simp [List.find?]
  · intro r hr
    rcases List.mem_append.1 hr with h | h
    · exact Nat.lt_succ_of_lt (hwf r h)
    · simp only [List.mem_singleton] at h
      subst h
      exact Nat.lt_succ_self _

/-- C7 (witness): creating a role named "editor" on the one-role store. -/
theorem create_role_assigns_fresh_id_witness :
    ∃ (r : RoleRec) (db' : DB),
      create_role dbRoles1 { name := "editor" } = (HResp.ok r, db') ∧
      r.name = "editor" ∧ r.permissions = [] ∧
      (∀ r₀ ∈ dbRoles1.roles, r₀.id ≠ r.id) ∧
      get_role db' r.id = HResp.ok r ∧
      rolesWf db' :=
  create_role_assigns_fresh_id dbRoles1 { name := "editor" } (by decide)

/-- C8.  No update changes an entity's id, and no user update changes
`registered_at`: the response of a successful update carries the prior
record's id (and, for users, its `registered_at`), and every user row in
the post-update store keeps the id and `registered_at` of a pre-update
row. -/
theorem update_preserves_id_and_registered_at :
    (∀ (db : DB) (uid : Nat) (p : UserUpdatePayload) (u : UserRec) (r : UserOut),
      db.users.find? (fun x => x.id == uid) = some u →
      (update_user db uid p).1 = HResp.ok r →
      r.id = u.id ∧ r.registered_at = u.registered_at) ∧
    (∀ (db : DB) (uid : Nat) (p : UserUpdatePayload),
      ∀ u' ∈ (update_user db uid p).2.users, ∃ u ∈ db.users,
        u'.id = u.id ∧ u'.registered_at = u.registered_at) ∧
    (∀ (db : DB) (rid : Nat) (p : RoleCreatePayload) (r₀ r : RoleRec),
      db.roles.find? (fun x => x.id == rid) = some r₀ →
      (update_role db rid p).1 = HResp.ok r →
      r.id = r₀.id) ∧
    (∀ (db : DB) (aid : Nat) (p : ArtistUpdatePayload) (a₀ a : ArtistRec),
      db.artists.find? (fun x => x.id == aid) = some a₀ →
      (update_artist db aid p).1 = HResp.ok a →
      a.id = a₀.id) := by
  refine ⟨?_, ?_, ?_, ?_⟩
  · intro db uid p u r hf hr
    cases hn : p.isNoop with
    | true => simp [update_user, hn] at hr
    | false =>
      have hmap := find?_map_ite (fun x : UserRec => x.id) uid (applyUserUpdate p)
        (fun _ => rfl) db.users
      simp only [update_user, hn, Bool.false_eq_true, if_false, hmap, hf,
        Option.map_some'] at hr
      injection hr with h
      subst h
      exact ⟨rfl, rfl⟩
  · intro db uid p u' hmem
    cases hn : p.isNoop with
    | true =>
      simp only [update_user, hn, if_true] at hmem
      exact ⟨u', hmem, rfl, rfl⟩
    | false =>
      rw [update_user_snd db uid p hn] at hmem
      rcases List.mem_map.1 hmem with ⟨u, hu, he⟩
      by_cases hid : (u.id == uid) = true
      · rw [if_pos hid] at he
        exact ⟨u, hu, by rw [← he]; rfl, by rw [← he]; rfl⟩
      · rw [if_neg hid] at he
        exact ⟨u, hu, by rw [← he], by rw [← he]⟩
  · intro db rid p r₀ r hf hr
    have hmap := find?_map_ite (fun x : RoleRec => x.id) rid
      (fun x => { x with name := p.name, permissions := p.permissions })
      (fun _ => rfl) db.roles
    simp only [update_role, hmap, hf, Option.map_some'] at hr
    injection hr with h
    subst h
    rfl
  · intro db aid p a₀ a hf hr
    cases hn : p.isNoop with
    | true => simp [update_artist, hn] at hr
    | false =>
      have hmap := find?_map_ite (fun x : ArtistRec => x.id) aid (applyArtistUpdate p)
        (fun _ => rfl) db.artists
      simp only [update_artist, hn, Bool.false_eq_true, if_false, hmap, hf,
        Option.map_some'] at hr
      injection hr with h
      subst h
      rfl

/-- C8 (witness): concrete updates on the sample stores keep id 1 and the
user's `registered_at` of 100. -/
theorem update_preserves_id_and_registered_at_witness :
    (({ id := 1, email := "alice@example.com", username := "bob", registered_at := 100, role_id := 1, is_active := true, is_superuser := false, is_verified := false } : UserOut).id = userA.id ∧
      ({ id := 1, email := "alice@example.com", username := "bob", registered_at := 100, role_id := 1, is_active := true, is_superuser := false, is_verified := false } : UserOut).registered_at = userA.registered_at) ∧
    (∃ u ∈ dbUsers1.users,
      (applyUserUpdate { username := some "bob" } userA).id = u.id ∧
      (applyUserUpdate { username := some "bob" } userA).registered_at = u.registered_at) ∧
    (({ id := 1, name := "root", permissions := [] } : RoleRec).id = roleAdmin.id) ∧
    (({ id := 1, name := "B", genre := some "rock", country := some "KZ" } : ArtistRec).id
      = artistA.id) := by
  refine ⟨update_preserves_id_and_registered_at.1 dbUsers1 1 { username := some "bob" }
      userA _ rfl rfl,
    update_preserves_id_and_registered_at.2.1 dbUsers1 1 { username := some "bob" }
      (applyUserUpdate { username := some "bob" } userA) (by decide),
    update_preserves_id_and_registered_at.2.2.1 dbRoles1 1 { name := "root" }
      roleAdmin _ rfl rfl,
    update_preserves_id_and_registered_at.2.2.2 dbArtists1 1 { name := some "B" }
      artistA _ rfl rfl⟩

/-- C9.  The two live `update_artist` definitions are not behaviorally
equivalent: for the wire payload `{"name": "B"}` (genre and country
omitted) on an existing artist with a stored genre, the partial-merge
variant keeps the genre while the full-overwrite variant nulls it. -/
theorem update_artist_variants_differ :
    ∃ (db : DB) (aid : Nat) (pu : ArtistUpdatePayload) (pc : ArtistCreatePayload),
      pu.name = some pc.name ∧ pu.genre = none ∧ pc.genre = none ∧
      pu.country = none ∧ pc.country = none ∧
      (update_artist db aid pu).1 ≠ (update_artist_overwrite db aid pc).1 := by
  refine ⟨dbArtists1, 1, { name := some "B" }, { name := "B" }, rfl, rfl, rfl, rfl, rfl, ?_⟩
  decide

/-- C10.  Responses of the user endpoints never depend on the stored
`hashed_password`: two stores related by `dbSameExceptHash` (equal except
possibly the hash column) give identical responses to Get, List, Update
and Create. -/
theorem user_endpoints_ignore_hashed_password :
    ∀ (d₁ d₂ : DB), dbSameExceptHash d₁ d₂ →
      (∀ uid, get_user d₁ uid = get_user d₂ uid) ∧
      (∀ limit offset, get_users d₁ limit offset = get_users d₂ limit offset) ∧
      (∀ uid p, (update_user d₁ uid p).1 = (update_user d₂ uid p).1) ∧
      (∀ p, (create_user d₁ p).1 = (create_user d₂ p).1) := by
  intro d₁ d₂ hrel
  obtain ⟨hu, -, -, -, -, -⟩ := hrel
  refine ⟨?_, ?_, ?_, fun _ => rfl⟩
  · intro uid
    have h := find?_proj_congr toUserOut toUserOut_congr uid hu
    unfold get_user
    cases h₁ : d₁.users.find? (fun u => u.id == uid) with
    | none =>
      cases h₂ : d₂.users.find? (fun u => u.id == uid) with
      | none => rfl
      | some v => rw [h₁, h₂] at h; exact absurd h (by simp)
    | some u =>
      cases h₂ : d₂.users.find? (fun u => u.id == uid) with
      | none => rw [h₁, h₂] at h; exact absurd h (by simp)
      | some v =>
        rw [h₁, h₂] at h
        simp only [Option.map_some'] at h
        injection h with h
        simp [h]
  · intro limit offset
    unfold get_users
    exact map_proj_congr toUserOut toUserOut_congr
      (List.forall₂_take limit (List.forall₂_drop offset hu))
  · intro uid p
    cases hn : p.isNoop with
    | true => simp [update_user, hn]
    | false =>
      have hm₁ := find?_map_ite (fun x : UserRec => x.id) uid (applyUserUpdate p)
        (fun _ => rfl) d₁.users
      have hm₂ := find?_map_ite (fun x : UserRec => x.id) uid (applyUserUpdate p)
        (fun _ => rfl) d₂.users
      have hp := find?_proj_congr (fun u => toUserOut (applyUserUpdate p u))
        (fun u v huv => toUserOut_congr _ _ (applyUserUpdate_congr p u v huv)) uid hu
      simp only [update_user, hn, Bool.false_eq_true, if_false, hm₁, hm₂]
      cases h₁ : d₁.users.find? (fun u => u.id == uid) with
      | none =>
        cases h₂ : d₂.users.find? (fun u => u.id == uid) with
        | none => rfl
        | some v => rw [h₁, h₂] at hp; exact absurd hp (by simp)
      | some u =>
        cases h₂ : d₂.users.find? (fun u => u.id == uid) with
        | none => rw [h₁, h₂] at hp; exact absurd hp (by simp)
        | some v =>
          rw [h₁, h₂] at hp
          simp only [Option.map_some'] at hp
          injection hp with hp
          simp [hp]

/-- C10 (witness): `dbUsers1` and `dbUsers2` differ only in the stored
hash of user 1 and are indistinguishable through the four endpoints. -/
theorem user_endpoints_ignore_hashed_password_witness :
    (∀ uid, get_user dbUsers1 uid = get_user dbUsers2 uid) ∧
    (∀ limit offset, get_users dbUsers1 limit offset = get_users dbUsers2 limit offset) ∧
    (∀ uid p, (update_user dbUsers1 uid p).1 = (update_user dbUsers2 uid p).1) ∧
    (∀ p, (create_user dbUsers1 p).1 = (create_user dbUsers2 p).1) := by
  refine user_endpoints_ignore_hashed_password dbUsers1 dbUsers2 ⟨?_, rfl, rfl, rfl, rfl, rfl⟩
  exact List.Forall₂.cons (by decide) List.Forall₂.nil

end Music
